import Mathlib

/-!
Shallow embedding of the `k8s-rust-web` service (`src/main.rs`): an axum web
server exposing `GET /` (HTML page of environment variables rendered with a
minijinja template), `GET /health` (static "OK"), and `GET /api` (the
environment serialized as a JSON object).

The process environment-variable table is modelled as an association list
with string keys and values (`env::vars()` yields unique keys); `env::set_var`
replaces the first binding of the key or appends a fresh one.  The minijinja
template `HTML` is embedded as its literal text segments with the
`{{ ... }}` interpolation points made explicit; an absent key renders as the
empty string (minijinja's default undefined).  Handler panics
(`local_ip().unwrap()` failing) are modelled as an absent response: the
tokio task serving that connection dies, the server loop continues.
-/

namespace K8sRustWeb

/-- The process environment-variable table: an association list of
variable names to values (`std::env`, keys unique in the OS table). -/
abbrev Env := List (String × String)

/-- `std::env::var` behaviour on the model: first binding of the key, if any. -/
def getVar : Env → String → Option String
  | [], _ => none
  | (k', v') :: rest, k => if k' = k then some v' else getVar rest k

/-- `std::env::set_var`: overwrite the binding of `k` if present,
otherwise append a fresh binding. -/
def setVar : Env → String → String → Env
  | [], k, v => [(k, v)]
  | (k', v') :: rest, k, v =>
      if k' = k then (k, v) :: rest else (k', v') :: setVar rest k v

/-- Minijinja lookup as used by `{{envs.NAME}}` / `{{ envs[item] }}`:
an absent key is `undefined`, which renders as the empty string. -/
def lookupD (envs : Env) (k : String) : String :=
  (getVar envs k).getD ""

/-- The keys of the environment table, in iteration order. -/
def envKeys (envs : Env) : List String :=
  envs.map Prod.fst

/-! ### The `HTML` template constant, split at its interpolation points.

`seg0 ++ hostname ++ seg1 ++ hostname ++ seg2 ++ localIp ++ seg3 ++ rows ++ seg4`
is the rendered document; `rows` is one `rowHtml` per key of `envs`
(the `{% for item in envs %}` loop). -/

/-- Template text before `{{envs.HOSTNAME}}` in the title. -/
def seg0 : String :=
  "\n<!DOCTYPE html>\n<html>\n<head>\n    <title>Welcome "

/-- Template text between the title interpolation and the `<h1>`
`{{envs.HOSTNAME}}` interpolation. -/
def seg1 : String :=
  "</title>\n    <!-- Add Bootstrap CSS link -->\n    <link rel=\"stylesheet\" href=\"https://cdn.jsdelivr.net/npm/bootstrap@5.3.0/dist/css/bootstrap.min.css\">\n</head>\n<body>\n    <div class=\"container text-center\">\n        <h1>Welcome to <span class=\"rainbow\">"

/-- Template text between the `<h1>` interpolation and `{{envs.LOCAL_IP}}`. -/
def seg2 : String :=
  "</span></h1>\n        <h2 style=\"margin:5px\">Local IP Address</h2>\n        <p>"

/-- Template text between the local-IP interpolation and the first loop
iteration (table head included). -/
def seg3 : String :=
  "</p>\n    </div>\n    <div>\n        <h2 style=\"margin:5px\">Environment Variables</h2>\n        <table class=\"table\">\n            <thead>\n                <tr>\n                    <th>Key</th>\n                    <th>Value</th>\n                </tr>\n            </thead>\n            <tbody>\n                "

/-- Loop-body text before `{{ item }}`. -/
def rowPre : String :=
  "\n                <tr>\n                    <td>"

/-- Loop-body text between `{{ item }}` and `{{ envs[item] }}`. -/
def rowMid : String :=
  "</td>\n                    <td>"

/-- Loop-body text after `{{ envs[item] }}`. -/
def rowPost : String :=
  "</td>\n                </tr>\n                "

/-- Template text after the `{% endfor %}`, through `</html>`; the decorative
rainbow script is static text. -/
def seg4 : String :=
  "\n            </tbody>\n        </table>\n    </div>\n\n    <!-- Add Bootstrap JS scripts -->\n    <script src=\"https://cdn.jsdelivr.net/npm/bootstrap@5.3.0/dist/js/bootstrap.bundle.min.js\"></script>\n</body>\n<script>\n    // Rainbow text easing\n    var colors = [\x27#FF0000\x27, \x27#FF7F00\x27, \x27#FFFF00\x27, \x27#00FF00\x27, \x27#0000FF\x27, \x27#4B0082\x27, \x27#9400D3\x27];\n    var i = 0;\n    setInterval(function() \x7b\n        document.querySelector(\x27.rainbow\x27).style.color = colors[i];\n        i = (i + 1) % colors.length;\n        document.querySelector(\x27.rainbow\x27).style.transition = \x27color 2s\x27;\n        document.querySelector(\x27.rainbow\x27).style.transitionTimingFunction = \x27ease\x27;\n        document.querySelector(\x27.rainbow\x27).style.transitionDuration = \x272s\x27;\n        document.querySelector(\x27.rainbow\x27).style.transitionDelay = \x270s\x27;\n    \x7d, 1000);\n\n</script>\n</html>\n"

/-- One iteration of the `{% for item in envs %}` loop for key `k`:
the key and the value looked up in the whole map, as the two cells. -/
def rowHtml (envs : Env) (k : String) : String :=
  rowPre ++ k ++ rowMid ++ lookupD envs k ++ rowPost

/-- Concatenation of a list of strings (the output stream of the renderer). -/
def strConcat : List String → String
  | [] => ""
  | s :: rest => s ++ strConcat rest

/-- The whole `{% for %}` loop output: one row per key of `envs`,
in iteration order. -/
def rowsHtml (envs : Env) : String :=
  strConcat ((envKeys envs).map (rowHtml envs))

/-- The template with the two scalar substitutions made explicit
(`hn` for both `{{envs.HOSTNAME}}` sites, `ip` for `{{envs.LOCAL_IP}}`). -/
def renderWith (hn ip : String) (envs : Env) : String :=
  seg0 ++ hn ++ seg1 ++ hn ++ seg2 ++ ip ++ seg3 ++ rowsHtml envs ++ seg4

/-- `minijinja::render!(HTML, envs)`: substitute `envs.HOSTNAME`,
`envs.LOCAL_IP` (empty when absent) and expand the loop. -/
def renderTemplate (envs : Env) : String :=
  renderWith (lookupD envs "HOSTNAME") (lookupD envs "LOCAL_IP") envs

/-! ### Handlers and router -/

/-- The machine-facing inputs the handlers consult: `gethostname()`
(infallible) and `local_ip()` (may fail: `none`). -/
structure World where
  hostname : String
  localIp : Option String

/-- An inbound HTTP request; the router dispatches on `path` only. -/
structure Request where
  path : String
  query : String
  headers : List (String × String)
  reqBody : String

/-- A response body: plain text (`&str`), HTML (`Html<String>`), or
the JSON object serialized from a map (`Json<HashMap<String, String>>`). -/
inductive Body where
  | text (s : String)
  | html (s : String)
  | json (m : Env)
deriving DecidableEq

/-- A response: status code, Content-Type header (if any), body. -/
structure Response where
  status : Nat
  contentType : Option String
  body : Body
deriving DecidableEq

/-- Handler for `GET /health`: `(StatusCode::OK, "OK")`. -/
def get_health : Nat × String :=
  (200, "OK")

/-- Handler for `GET /api`: collect `env::vars()` and return them
(serialized as a JSON object by axum's `Json`). -/
def get_env (env : Env) : Env :=
  env

/-- Handler for `GET /`: set `HOSTNAME` and `LOCAL_IP` in the process
environment, snapshot it, render the template.  If `local_ip()` fails the
`.unwrap()` panics after the `HOSTNAME` write: no response (`none`). -/
def root (w : World) (env : Env) : Env × Option (Nat × String) :=
  let env1 := setVar env "HOSTNAME" w.hostname
  match w.localIp with
  | none => (env1, none)
  | some ip =>
      let env2 := setVar env1 "LOCAL_IP" ip
      let envs := env2
      (env2, some (200, renderTemplate envs))

/-- The router: dispatch on the exact path; any other path gets the
framework's 404.  The environment table is threaded through; `none`
as response models a panicked handler task. -/
def handleRequest (w : World) (env : Env) (req : Request) :
    Env × Option Response :=
  if req.path = "/" then
    match root w env with
    | (env1, none) => (env1, none)
    | (env1, some (st, page)) =>
        (env1, some ⟨st, some "text/html; charset=utf-8", Body.html page⟩)
  else if req.path = "/health" then
    (env, some ⟨get_health.1, some "text/plain; charset=utf-8",
                Body.text get_health.2⟩)
  else if req.path = "/api" then
    (env, some ⟨200, some "application/json", Body.json (get_env env)⟩)
  else
    (env, some ⟨404, none, Body.text ""⟩)

/-- The serving loop: requests handled in sequence against the process-wide
environment table; a panicked handler (`none`) kills only its own task,
the loop goes on. -/
def serve (w : World) (env : Env) : List Request → Env × List (Option Response)
  | [] => (env, [])
  | r :: rs =>
      let step := handleRequest w env r
      let rest := serve w step.1 rs
      (rest.1, step.2 :: rest.2)

/-- Substring containment: `t` occurs contiguously inside `s`. -/
def strContains (s t : String) : Prop :=
  ∃ u v, s = u ++ (t ++ v)

/-! ### Lemmas about the environment table -/

theorem getVar_setVar_self (e : Env) (k v : String) :
    getVar (setVar e k v) k = some v := by
  induction e with
  | nil => simp [setVar, getVar]
  | cons p rest ih =>
      by_cases h : p.1 = k
      · simp [setVar, getVar, h]
      · simp [setVar, getVar, h, ih]

theorem getVar_setVar_ne (e : Env) (k k' v : String) (h : k' ≠ k) :
    getVar (setVar e k v) k' = getVar e k' := by
  induction e with
  | nil => simp [setVar, getVar, Ne.symm h]
  | cons p rest ih =>
      by_cases hp : p.1 = k
      · simp [setVar, getVar, hp, h, Ne.symm h]
      · by_cases hp' : p.1 = k'
        · simp [setVar, getVar, hp, hp', h]
        · simp [setVar, getVar, hp, hp', ih]

theorem envKeys_setVar_mem (e : Env) (k v : String) (h : k ∈ envKeys e) :
    envKeys (setVar e k v) = envKeys e := by
  induction e with
  | nil => simp [envKeys] at h
  | cons p rest ih =>
      by_cases hp : p.1 = k
      · simp [setVar, envKeys, hp]
      · have hk : k ∈ envKeys rest := by
          simpa [envKeys, hp, Ne.symm hp] using h
        simp [setVar, envKeys, hp]
        simpa [envKeys] using ih hk

theorem envKeys_setVar_not_mem (e : Env) (k v : String) (h : k ∉ envKeys e) :
    envKeys (setVar e k v) = envKeys e ++ [k] := by
  induction e with
  | nil => simp [setVar, envKeys]
  | cons p rest ih =>
      have hp : p.1 ≠ k := fun hc =>
        h (List.mem_cons.mpr (Or.inl hc.symm))
      have hk : k ∉ envKeys rest := fun hc =>
        h (List.mem_cons.mpr (Or.inr hc))
      simp [setVar, envKeys, hp]
      simpa [envKeys] using ih hk

theorem nodup_envKeys_setVar (e : Env) (k v : String)
    (h : (envKeys e).Nodup) : (envKeys (setVar e k v)).Nodup := by
  by_cases hm : k ∈ envKeys e
  · rw [envKeys_setVar_mem e k v hm]; exact h
  · rw [envKeys_setVar_not_mem e k v hm]
    simpa [List.nodup_append] using ⟨h, hm⟩

theorem getVar_eq_of_mem (e : Env) (k v : String)
    (hnd : (envKeys e).Nodup) (hm : (k, v) ∈ e) : getVar e k = some v := by
  induction e with
  | nil => simp at hm
  | cons p rest ih =>
      rcases List.mem_cons.mp hm with heq | htail
      · subst heq; simp [getVar]
      · have hk : p.1 ≠ k := by
          intro hc
          have : p.1 ∈ envKeys rest := by
            subst hc
            exact List.mem_map.mpr ⟨(p.1, v), htail, rfl⟩
          exact (List.nodup_cons.mp (by simpa [envKeys] using hnd)).1 this
        have hrest : (envKeys rest).Nodup :=
          (List.nodup_cons.mp (by simpa [envKeys] using hnd)).2
        simp [getVar, hk, ih hrest htail]

theorem mem_of_getVar (e : Env) (k v : String)
    (h : getVar e k = some v) : (k, v) ∈ e := by
  induction e with
  | nil => simp [getVar] at h
  | cons p rest ih =>
      by_cases hp : p.1 = k
      · refine List.mem_cons.mpr (Or.inl ?_)
        have hv : p.2 = v := by simpa [getVar, hp] using h
        calc (k, v) = (p.1, p.2) := by rw [hp, hv]
          _ = p := rfl
      · exact List.mem_cons.mpr
          (Or.inr (ih (by simpa [getVar, hp] using h)))

/-! ### Lemmas about strings and rendering -/

theorem strEmpty_append (s : String) : "" ++ s = s := by
  cases s; rfl

theorem strConcat_append (a b : List String) :
    strConcat (a ++ b) = strConcat a ++ strConcat b := by
  induction a with
  | nil => simp [strConcat, strEmpty_append]
  | cons s rest ih => simp [strConcat, ih, String.append_assoc]

theorem rowHtml_eq_of_mem (envs : Env) (k v : String)
    (hnd : (envKeys envs).Nodup) (hm : (k, v) ∈ envs) :
    rowHtml envs k = rowPre ++ k ++ rowMid ++ v ++ rowPost := by
  unfold rowHtml lookupD
  rw [getVar_eq_of_mem envs k v hnd hm]
  rfl

/-- Under unique keys, the loop output is the elementwise row of each
key/value pair of the table, concatenated in order. -/
theorem rowsHtml_eq (envs : Env) (hnd : (envKeys envs).Nodup) :
    rowsHtml envs =
      strConcat (envs.map fun p => rowPre ++ p.1 ++ rowMid ++ p.2 ++ rowPost) := by
  unfold rowsHtml envKeys
  rw [List.map_map]
  congr 1
  refine List.map_congr_left ?_
  intro p hp
  exact rowHtml_eq_of_mem envs p.1 p.2 hnd (by simpa using hp)

/-! ### Splits of template literals used by containment statements -/

/-- `seg3` up to the `<table` opening. -/
def seg3TablePre : String :=
  "</p>\n    </div>\n    <div>\n        <h2 style=\"margin:5px\">Environment Variables</h2>\n        "

/-- `seg3` after the `<table` opening. -/
def seg3TablePost : String :=
  " class=\"table\">\n            <thead>\n                <tr>\n                    <th>Key</th>\n                    <th>Value</th>\n                </tr>\n            </thead>\n            <tbody>\n                "

theorem seg3_split : seg3 = seg3TablePre ++ ("<table" ++ seg3TablePost) := by
  rfl

/-- `rowPre` up to the key cell's `<td>`. -/
def rowCellPre : String :=
  "\n                <tr>\n                    "

theorem rowPre_split : rowPre = rowCellPre ++ "<td>" := by
  rfl

/-- `rowPost` after the value cell's `</td>`. -/
def rowCellPost : String :=
  "\n                </tr>\n                "

theorem rowPost_split : rowPost = "</td>" ++ rowCellPost := by
  rfl

/-- `seg4` up to the closing `</html>`. -/
def seg4HtmlPre : String :=
  "\n            </tbody>\n        </table>\n    </div>\n\n    <!-- Add Bootstrap JS scripts -->\n    <script src=\"https://cdn.jsdelivr.net/npm/bootstrap@5.3.0/dist/js/bootstrap.bundle.min.js\"></script>\n</body>\n<script>\n    // Rainbow text easing\n    var colors = [\x27#FF0000\x27, \x27#FF7F00\x27, \x27#FFFF00\x27, \x27#00FF00\x27, \x27#0000FF\x27, \x27#4B0082\x27, \x27#9400D3\x27];\n    var i = 0;\n    setInterval(function() \x7b\n        document.querySelector(\x27.rainbow\x27).style.color = colors[i];\n        i = (i + 1) % colors.length;\n        document.querySelector(\x27.rainbow\x27).style.transition = \x27color 2s\x27;\n        document.querySelector(\x27.rainbow\x27).style.transitionTimingFunction = \x27ease\x27;\n        document.querySelector(\x27.rainbow\x27).style.transitionDuration = \x272s\x27;\n        document.querySelector(\x27.rainbow\x27).style.transitionDelay = \x270s\x27;\n    \x7d, 1000);\n\n</script>\n"

set_option maxRecDepth 4096 in
theorem seg4_split : seg4 = seg4HtmlPre ++ ("</html>" ++ "\n") := by
  rfl

/-! ### Claim theorems -/

/-- C1: every GET request to `/health` gets status 200 with body exactly
the string `OK`. -/
theorem health_always_ok (w : World) (env : Env) (req : Request)
    (h : req.path = "/health") :
    (handleRequest w env req).2 =
      some ⟨200, some "text/plain; charset=utf-8", Body.text "OK"⟩ := by
  simp [handleRequest, h, get_health]

/-- Witness for C1 at a concrete request. -/
theorem health_always_ok_witness :
    (handleRequest ⟨"node-1", some "10.0.0.7"⟩ [("PATH", "/bin")]
        ⟨"/health", "", [], ""⟩).2 =
      some ⟨200, some "text/plain; charset=utf-8", Body.text "OK"⟩ :=
  health_always_ok ⟨"node-1", some "10.0.0.7"⟩ [("PATH", "/bin")]
    ⟨"/health", "", [], ""⟩ rfl

/-- C2: every GET request to `/api` gets status 200 with Content-Type
`application/json` and a JSON object whose keys are exactly the process's
environment-variable names at handling time, each mapped to its value. -/
theorem api_returns_env_json (w : World) (env : Env) (req : Request)
    (h : req.path = "/api") :
    ∃ m, (handleRequest w env req).2 =
        some ⟨200, some "application/json", Body.json m⟩ ∧
      envKeys m = envKeys env ∧
      ∀ k, getVar m k = getVar env k := by
  refine ⟨env, ?_, rfl, fun k => rfl⟩
  simp [handleRequest, h, get_env]

/-- Witness for C2 at a concrete request and environment. -/
theorem api_returns_env_json_witness :
    ∃ m, (handleRequest ⟨"node-1", some "10.0.0.7"⟩ [("FOO", "bar")]
        ⟨"/api", "", [], ""⟩).2 =
        some ⟨200, some "application/json", Body.json m⟩ ∧
      envKeys m = envKeys [("FOO", "bar")] ∧
      ∀ k, getVar m k = getVar [("FOO", "bar")] k :=
  api_returns_env_json ⟨"node-1", some "10.0.0.7"⟩ [("FOO", "bar")]
    ⟨"/api", "", [], ""⟩ rfl

/-- C5: when local-IP resolution fails on a `/` request, that request
produces no response (so no blank or stale `LOCAL_IP` page is rendered),
only `HOSTNAME` has been written, and the serving loop continues to
process the remaining requests. -/
theorem root_ip_failure_request_scoped (w : World) (env : Env)
    (req : Request) (reqs : List Request)
    (hp : req.path = "/") (hip : w.localIp = none) :
    (handleRequest w env req).2 = none ∧
    (handleRequest w env req).1 = setVar env "HOSTNAME" w.hostname ∧
    serve w env (req :: reqs) =
      ((serve w (setVar env "HOSTNAME" w.hostname) reqs).1,
        none :: (serve w (setVar env "HOSTNAME" w.hostname) reqs).2) := by
  refine ⟨?_, ?_, ?_⟩ <;> simp [handleRequest, hp, root, hip, serve]

/-- Witness for C5: a failing `/` request followed by a `/health` request
that is still served. -/
theorem root_ip_failure_request_scoped_witness :
    (handleRequest ⟨"node-1", none⟩ [("FOO", "bar")] ⟨"/", "", [], ""⟩).2
      = none ∧
    (handleRequest ⟨"node-1", none⟩ [("FOO", "bar")] ⟨"/", "", [], ""⟩).1
      = setVar [("FOO", "bar")] "HOSTNAME" "node-1" ∧
    serve ⟨"node-1", none⟩ [("FOO", "bar")]
        [⟨"/", "", [], ""⟩, ⟨"/health", "", [], ""⟩] =
      ((serve ⟨"node-1", none⟩
          (setVar [("FOO", "bar")] "HOSTNAME" "node-1")
          [⟨"/health", "", [], ""⟩]).1,
        none :: (serve ⟨"node-1", none⟩
          (setVar [("FOO", "bar")] "HOSTNAME" "node-1")
          [⟨"/health", "", [], ""⟩]).2) :=
  root_ip_failure_request_scoped ⟨"node-1", none⟩ [("FOO", "bar")]
    ⟨"/", "", [], ""⟩ [⟨"/health", "", [], ""⟩] rfl rfl

/-- C6: rendering is total, and a snapshot missing `HOSTNAME` or
`LOCAL_IP` substitutes the empty string for the missing key while the
full page (through `</html>`) is still produced. -/
theorem render_missing_key_empty (envs : Env) :
    renderTemplate envs =
      renderWith (lookupD envs "HOSTNAME") (lookupD envs "LOCAL_IP") envs ∧
    (getVar envs "HOSTNAME" = none → lookupD envs "HOSTNAME" = "") ∧
    (getVar envs "LOCAL_IP" = none → lookupD envs "LOCAL_IP" = "") ∧
    strContains (renderTemplate envs) "</html>" := by
  refine ⟨rfl, fun h => by simp [lookupD, h], fun h => by simp [lookupD, h], ?_⟩
  refine ⟨seg0 ++ lookupD envs "HOSTNAME" ++ seg1 ++ lookupD envs "HOSTNAME" ++
    seg2 ++ lookupD envs "LOCAL_IP" ++ seg3 ++ rowsHtml envs ++ seg4HtmlPre,
    "\n", ?_⟩
  rw [renderTemplate, renderWith, seg4_split]
  simp [String.append_assoc]

/-- Witness for C6: a snapshot with neither `HOSTNAME` nor `LOCAL_IP`
renders with empty substitutions. -/
theorem render_missing_key_empty_witness :
    lookupD [("PATH", "/usr/bin")] "HOSTNAME" = "" ∧
    lookupD [("PATH", "/usr/bin")] "LOCAL_IP" = "" ∧
    strContains (renderTemplate [("PATH", "/usr/bin")]) "</html>" :=
  ⟨(render_missing_key_empty [("PATH", "/usr/bin")]).2.1 (by decide),
   (render_missing_key_empty [("PATH", "/usr/bin")]).2.2.1 (by decide),
   (render_missing_key_empty [("PATH", "/usr/bin")]).2.2.2⟩

/-- C7: handlers read nothing of the request but its routed path: two
requests to the same path, against the same environment, produce identical
environment updates and identical responses. -/
theorem handlers_ignore_request_input (w : World) (env : Env)
    (r1 r2 : Request) (h : r1.path = r2.path) :
    handleRequest w env r1 = handleRequest w env r2 := by
  simp only [handleRequest, h]

/-- Witness for C7: query, headers and body differ, responses coincide. -/
theorem handlers_ignore_request_input_witness :
    handleRequest ⟨"node-1", some "10.0.0.7"⟩ [("FOO", "bar")]
        ⟨"/api", "a=1&b=2", [("X-Header", "y")], "ignored"⟩ =
      handleRequest ⟨"node-1", some "10.0.0.7"⟩ [("FOO", "bar")]
        ⟨"/api", "", [], ""⟩ :=
  handlers_ignore_request_input ⟨"node-1", some "10.0.0.7"⟩ [("FOO", "bar")]
    ⟨"/api", "a=1&b=2", [("X-Header", "y")], "ignored"⟩
    ⟨"/api", "", [], ""⟩ rfl

/-- C8: round-trip — a variable `k=v` present in the process environment
when `/api` is handled appears as the entry `k : v` of the JSON object. -/
theorem api_round_trip (w : World) (env : Env) (req : Request)
    (k v : String) (hp : req.path = "/api") (hv : getVar env k = some v) :
    ∃ m, (handleRequest w env req).2 =
        some ⟨200, some "application/json", Body.json m⟩ ∧
      getVar m k = some v ∧ (k, v) ∈ m :=
  ⟨env, by simp [handleRequest, hp, get_env], hv, mem_of_getVar env k v hv⟩

/-- Witness for C8 with `FOO=bar`. -/
theorem api_round_trip_witness :
    ∃ m, (handleRequest ⟨"node-1", some "10.0.0.7"⟩
        [("FOO", "bar"), ("PATH", "/bin")] ⟨"/api", "", [], ""⟩).2 =
        some ⟨200, some "application/json", Body.json m⟩ ∧
      getVar m "FOO" = some "bar" ∧ ("FOO", "bar") ∈ m :=
  api_round_trip ⟨"node-1", some "10.0.0.7"⟩ [("FOO", "bar"), ("PATH", "/bin")]
    ⟨"/api", "", [], ""⟩ "FOO" "bar" rfl (by decide)

/-- C9: `/api` neither mutates the environment table nor forces synthetic
keys: the table after the request is the table before it, and every key
absent before (e.g. `HOSTNAME`, `LOCAL_IP` when `/` was never hit) is
absent from the JSON object. -/
theorem api_no_mutation_no_synthesis (w : World) (env : Env)
    (req : Request) (hp : req.path = "/api") :
    (handleRequest w env req).1 = env ∧
    ∃ m, (handleRequest w env req).2 =
        some ⟨200, some "application/json", Body.json m⟩ ∧
      (∀ k, getVar m k = getVar env k) ∧
      (∀ k, getVar env k = none → getVar m k = none) := by
  refine ⟨by simp [handleRequest, hp], env, by simp [handleRequest, hp, get_env],
    fun k => rfl, fun k h => h⟩

/-- Witness for C9: an environment without `HOSTNAME`/`LOCAL_IP`, never
having hit `/`. -/
theorem api_no_mutation_no_synthesis_witness :
    (handleRequest ⟨"node-1", some "10.0.0.7"⟩ [("FOO", "bar")]
        ⟨"/api", "", [], ""⟩).1 = [("FOO", "bar")] ∧
    ∃ m, (handleRequest ⟨"node-1", some "10.0.0.7"⟩ [("FOO", "bar")]
        ⟨"/api", "", [], ""⟩).2 =
        some ⟨200, some "application/json", Body.json m⟩ ∧
      (∀ k, getVar m k = getVar [("FOO", "bar")] k) ∧
      (∀ k, getVar [("FOO", "bar")] k = none → getVar m k = none) :=
  api_no_mutation_no_synthesis ⟨"node-1", some "10.0.0.7"⟩ [("FOO", "bar")]
    ⟨"/api", "", [], ""⟩ rfl

theorem strConcat_cons (s : String) (l : List String) :
    strConcat (s :: l) = s ++ strConcat l := rfl

/-- C4: a successful `/` request rewrites exactly `HOSTNAME` (to the
resolved hostname) and `LOCAL_IP` (to the resolved address) in the
process-wide table, leaves every other entry unchanged, and renders the
snapshot of the entire post-mutation table. -/
theorem root_sets_exactly_two_keys (w : World) (env : Env) (req : Request)
    (ip : String) (hp : req.path = "/") (hip : w.localIp = some ip) :
    (handleRequest w env req).1 =
      setVar (setVar env "HOSTNAME" w.hostname) "LOCAL_IP" ip ∧
    getVar (handleRequest w env req).1 "HOSTNAME" = some w.hostname ∧
    getVar (handleRequest w env req).1 "LOCAL_IP" = some ip ∧
    (∀ k, k ≠ "HOSTNAME" → k ≠ "LOCAL_IP" →
      getVar (handleRequest w env req).1 k = getVar env k) ∧
    (handleRequest w env req).2 =
      some ⟨200, some "text/html; charset=utf-8",
        Body.html (renderTemplate (handleRequest w env req).1)⟩ := by
  have henv : (handleRequest w env req).1 =
      setVar (setVar env "HOSTNAME" w.hostname) "LOCAL_IP" ip := by
    simp [handleRequest, hp, root, hip]
  refine ⟨henv, ?_, ?_, ?_, ?_⟩
  · rw [henv,
      getVar_setVar_ne (setVar env "HOSTNAME" w.hostname) "LOCAL_IP"
        "HOSTNAME" ip (by decide),
      getVar_setVar_self]
  · rw [henv, getVar_setVar_self]
  · intro k h1 h2
    rw [henv,
      getVar_setVar_ne (setVar env "HOSTNAME" w.hostname) "LOCAL_IP" k ip h2,
      getVar_setVar_ne env "HOSTNAME" k w.hostname h1]
  · rw [henv]
    simp [handleRequest, hp, root, hip]

/-- Witness for C4 at a concrete request. -/
theorem root_sets_exactly_two_keys_witness :
    (handleRequest ⟨"node-1", some "10.0.0.7"⟩ [("FOO", "bar")]
        ⟨"/", "", [], ""⟩).1 =
      setVar (setVar [("FOO", "bar")] "HOSTNAME" "node-1") "LOCAL_IP"
        "10.0.0.7" ∧
    getVar (handleRequest ⟨"node-1", some "10.0.0.7"⟩ [("FOO", "bar")]
        ⟨"/", "", [], ""⟩).1 "HOSTNAME" = some "node-1" ∧
    getVar (handleRequest ⟨"node-1", some "10.0.0.7"⟩ [("FOO", "bar")]
        ⟨"/", "", [], ""⟩).1 "LOCAL_IP" = some "10.0.0.7" ∧
    (∀ k, k ≠ "HOSTNAME" → k ≠ "LOCAL_IP" →
      getVar (handleRequest ⟨"node-1", some "10.0.0.7"⟩ [("FOO", "bar")]
        ⟨"/", "", [], ""⟩).1 k = getVar [("FOO", "bar")] k) ∧
    (handleRequest ⟨"node-1", some "10.0.0.7"⟩ [("FOO", "bar")]
        ⟨"/", "", [], ""⟩).2 =
      some ⟨200, some "text/html; charset=utf-8",
        Body.html (renderTemplate
          (handleRequest ⟨"node-1", some "10.0.0.7"⟩ [("FOO", "bar")]
            ⟨"/", "", [], ""⟩).1)⟩ :=
  root_sets_exactly_two_keys ⟨"node-1", some "10.0.0.7"⟩ [("FOO", "bar")]
    ⟨"/", "", [], ""⟩ "10.0.0.7" rfl rfl

/-- C3: a successful `/` request gets status 200, Content-Type
`text/html; charset=utf-8`, a body containing the machine's hostname and
the `<table` element, and the body carries exactly one rendered row per
entry of the snapshot, each row holding the key and its value as the
two cells. -/
theorem root_renders_snapshot (w : World) (env : Env) (req : Request)
    (ip : String) (hp : req.path = "/") (hip : w.localIp = some ip)
    (hnd : (envKeys env).Nodup) :
    ∃ page,
      (handleRequest w env req).2 =
        some ⟨200, some "text/html; charset=utf-8", Body.html page⟩ ∧
      strContains page w.hostname ∧
      strContains page "<table" ∧
      ∃ pre post,
        page = pre ++
          (strConcat ((setVar (setVar env "HOSTNAME" w.hostname)
              "LOCAL_IP" ip).map
            fun p => rowPre ++ p.1 ++ rowMid ++ p.2 ++ rowPost) ++ post) ∧
        ((setVar (setVar env "HOSTNAME" w.hostname) "LOCAL_IP" ip).map
            fun p => rowPre ++ p.1 ++ rowMid ++ p.2 ++ rowPost).length =
          (setVar (setVar env "HOSTNAME" w.hostname) "LOCAL_IP" ip).length := by
  have hsnd : (envKeys (setVar (setVar env "HOSTNAME" w.hostname)
      "LOCAL_IP" ip)).Nodup :=
    nodup_envKeys_setVar _ _ _ (nodup_envKeys_setVar _ _ _ hnd)
  have hH : lookupD (setVar (setVar env "HOSTNAME" w.hostname)
      "LOCAL_IP" ip) "HOSTNAME" = w.hostname := by
    simp only [lookupD]
    rw [getVar_setVar_ne (setVar env "HOSTNAME" w.hostname) "LOCAL_IP"
        "HOSTNAME" ip (by decide),
      getVar_setVar_self]
    rfl
  have hL : lookupD (setVar (setVar env "HOSTNAME" w.hostname)
      "LOCAL_IP" ip) "LOCAL_IP" = ip := by
    simp only [lookupD]
    rw [getVar_setVar_self]
    rfl
  refine ⟨renderTemplate (setVar (setVar env "HOSTNAME" w.hostname)
    "LOCAL_IP" ip), ?_, ?_, ?_, ?_⟩
  · simp [handleRequest, hp, root, hip]
  · refine ⟨seg0, seg1 ++ w.hostname ++ seg2 ++ ip ++ seg3 ++
      rowsHtml (setVar (setVar env "HOSTNAME" w.hostname) "LOCAL_IP" ip) ++
      seg4, ?_⟩
    rw [renderTemplate, hH, hL, renderWith]
    simp [String.append_assoc]
  · refine ⟨seg0 ++ w.hostname ++ seg1 ++ w.hostname ++ seg2 ++ ip ++
      seg3TablePre,
      seg3TablePost ++
        rowsHtml (setVar (setVar env "HOSTNAME" w.hostname) "LOCAL_IP" ip) ++
        seg4, ?_⟩
    rw [renderTemplate, hH, hL, renderWith, seg3_split]
    simp [String.append_assoc]
  · refine ⟨seg0 ++ w.hostname ++ seg1 ++ w.hostname ++ seg2 ++ ip ++ seg3,
      seg4, ?_, ?_⟩
    · rw [renderTemplate, hH, hL, renderWith, rowsHtml_eq _ hsnd]
      simp [String.append_assoc]
    · simp

/-- Witness for C3 at a concrete request and environment. -/
theorem root_renders_snapshot_witness :
    ∃ page,
      (handleRequest ⟨"node-1", some "10.0.0.7"⟩ [("FOO", "bar")]
        ⟨"/", "", [], ""⟩).2 =
        some ⟨200, some "text/html; charset=utf-8", Body.html page⟩ ∧
      strContains page "node-1" ∧
      strContains page "<table" ∧
      ∃ pre post,
        page = pre ++
          (strConcat ((setVar (setVar [("FOO", "bar")] "HOSTNAME" "node-1")
              "LOCAL_IP" "10.0.0.7").map
            fun p => rowPre ++ p.1 ++ rowMid ++ p.2 ++ rowPost) ++ post) ∧
        ((setVar (setVar [("FOO", "bar")] "HOSTNAME" "node-1") "LOCAL_IP"
            "10.0.0.7").map
            fun p => rowPre ++ p.1 ++ rowMid ++ p.2 ++ rowPost).length =
          (setVar (setVar [("FOO", "bar")] "HOSTNAME" "node-1") "LOCAL_IP"
            "10.0.0.7").length :=
  root_renders_snapshot ⟨"node-1", some "10.0.0.7"⟩ [("FOO", "bar")]
    ⟨"/", "", [], ""⟩ "10.0.0.7" rfl rfl (by decide)

/-- C10: the renderer interpolates keys and values into the page verbatim,
with no HTML escaping: every entry of the snapshot appears
character-for-character inside its two table cells, even when the value
holds characters like `<` or `&`. -/
theorem render_interpolates_verbatim (envs : Env) (k v : String)
    (hnd : (envKeys envs).Nodup) (hm : (k, v) ∈ envs) :
    strContains (renderTemplate envs)
      ("<td>" ++ (k ++ (rowMid ++ (v ++ "</td>")))) := by
  obtain ⟨s, t, rfl⟩ := List.append_of_mem hm
  refine ⟨seg0 ++ lookupD (s ++ (k, v) :: t) "HOSTNAME" ++ seg1 ++
    lookupD (s ++ (k, v) :: t) "HOSTNAME" ++ seg2 ++
    lookupD (s ++ (k, v) :: t) "LOCAL_IP" ++ seg3 ++
    strConcat (s.map fun p => rowPre ++ p.1 ++ rowMid ++ p.2 ++ rowPost) ++
    rowCellPre,
    rowCellPost ++
      strConcat (t.map fun p => rowPre ++ p.1 ++ rowMid ++ p.2 ++ rowPost) ++
      seg4, ?_⟩
  rw [renderTemplate, renderWith, rowsHtml_eq _ hnd, List.map_append,
    List.map_cons, strConcat_append, strConcat_cons, rowPre_split,
    rowPost_split]
  simp [String.append_assoc]

/-- Witness for C10: a value holding `<` and `&` appears verbatim in its
cell, not as HTML entities. -/
theorem render_interpolates_verbatim_witness :
    strContains (renderTemplate [("XSS", "<i>&amp")])
      ("<td>" ++ ("XSS" ++ (rowMid ++ ("<i>&amp" ++ "</td>")))) :=
  render_interpolates_verbatim [("XSS", "<i>&amp")] "XSS" "<i>&amp"
    (by decide) (by decide)

end K8sRustWeb
